import Mathlib

/-
  Verification of the retrieval / diagnosis core of the `rag-agent` repository.

  The Python sources are embedded shallowly:
  * JSON-like values produced by the LLM become the inductive type `Val`;
    Python dicts become association lists (`Dict`) where a later binding
    shadows an earlier one, so that `{**a, **b}` is list append and lookup
    returns the last binding of a key — exactly Python's dict-union view.
  * Floating point scores are modelled as rationals (`ℚ`).
  * External collaborators (vector store, LLM endpoint, report emitter)
    are parameters of the embedded functions; an LLM call that may raise
    is an `Except String` value consumed by the node that catches it.
-/

namespace RagAgent

/-- JSON-like values held in the dynamic dicts the Python code passes around. -/
inductive Val where
  | vStr : String → Val
  | vInt : Int → Val
  | vList : List Val → Val
  | vDict : List (String × Val) → Val

/-- Python dict, as an association list where a later binding shadows an
earlier one.  `{**a, **b}` is then `a ++ b` and lookup is last-match. -/
abbrev Dict := List (String × Val)

/-- Lookup of the effective (last) binding of `k`, i.e. Python `d.get(k)`. -/
def dget (d : Dict) (k : String) : Option Val :=
  (d.reverse.find? (fun p => p.1 == k)).map (·.2)

/-- Python `d[k] = v`: under last-match lookup, appending the pair. -/
def dset (d : Dict) (k : String) (v : Val) : Dict :=
  d ++ [(k, v)]

/-- Python `d.pop(k, None)` restricted to its effect on the dict. -/
def dpop (d : Dict) (k : String) : Dict :=
  d.filter (fun p => p.1 ≠ k)

/-- Python truthiness of a `Val` (dicts assumed without shadowed keys). -/
def Val.truthy : Val → Bool
  | .vStr s => s ≠ ""
  | .vInt n => n ≠ 0
  | .vList l => !l.isEmpty
  | .vDict d => !d.isEmpty

/-- Whether a value is a Python dict. -/
def Val.isDict : Val → Bool
  | .vDict _ => true
  | _ => false


/-!
## Reciprocal Rank Fusion

Embeds `HybridRetriever._reciprocal_rank_fusion`
(`src/rag_agent/retrieval/hybrid_retriever.py`).  The source iterates over
the union of both key sets and stores the fused score of every key in a
dict; here the rank maps are partial functions from document keys and the
fused score is computed per document by the very same two guarded
contributions, so the function below gives, for each key of the union,
exactly the value the source stores for it.
-/

/-- Fused RRF score of one document, as computed inside the loop of
`_reciprocal_rank_fusion`: each rank map present for the document
contributes its weighted reciprocal rank, an absent map contributes 0. -/
def rrfScore (ranks1 ranks2 : String → Option ℕ) (alpha k : ℚ)
    (d : String) : ℚ :=
  (match ranks1 d with
   | some r => alpha * (1 / (k + (r : ℚ)))
   | none => 0)
  +
  (match ranks2 d with
   | some r => (1 - alpha) * (1 / (k + (r : ℚ)))
   | none => 0)

/-- Rank map for the C6 counterexample: document "A" at rank 0, nothing else. -/
def rrfRanksDenseOnly : String → Option ℕ := fun d => if d = "A" then some 0 else none

/-- Empty rank map for the C6 counterexample. -/
def rrfRanksEmpty : String → Option ℕ := fun _ => none

/-- Concrete first rank map used by the C6 witness. -/
def rrfRanks1ex : String → Option ℕ := fun d =>
  if d = "A" then some 0 else if d = "B" then some 1 else
  if d = "C" then some 2 else none

/-- Concrete second rank map used by the C6 witness ("C" is absent). -/
def rrfRanks2ex : String → Option ℕ := fun d =>
  if d = "A" then some 0 else if d = "B" then some 2 else none

/-!
## BM25 sparse retriever

Embeds `BM25Retriever` (`src/rag_agent/retrieval/bm25_retriever.py`).
Tokenization (`jieba.cut`) is an external segmentation model, so the corpus
and the query enter the embedding as raw token lists; the length-`> 1`
stop-word filter of the source is applied here exactly as in
`_build_index` / `_get_scores`.  The IDF table `self._idf` maps a token to
`ln((N - df + 0.5)/(df + 0.5) + 1)`, a transcendental value; the embedding
takes the table as a rational-valued function `idf`, with `idf t = 0` for
tokens outside the table matching `self._idf.get(token, 0)`.  Every
property proved below assumes only that the table is nonnegative, which
holds for the table the source computes because the argument of `ln`
is `> 1` (`df ≤ N`, so the quotient is positive).  Documents are
represented by their 0-based index in the corpus: the source returns
`self.documents[doc_id]`, a pointwise renaming of the index list computed
here.
-/

/-- The stop-word filter of `_build_index` / `_get_scores`: tokens of
length `≤ 1` are dropped. -/
def bm25Filter (tokens : List String) : List String :=
  tokens.filter (fun t => 1 < t.length)

/-- `self._corpus`: every document tokenized (externally) and filtered. -/
def bm25Corpus (docsTokens : List (List String)) : List (List String) :=
  docsTokens.map bm25Filter

/-- `self._avgdl`: mean token count per corpus document, 0 for an empty
corpus (`sum(doc_lengths)/len(doc_lengths) if doc_lengths else 0`). -/
def bm25Avgdl (corpus : List (List String)) : ℚ :=
  if corpus.isEmpty then 0
  else ((corpus.map List.length).sum : ℚ) / (corpus.length : ℚ)

/-- One query term's contribution to one document inside the scoring loop
of `_get_scores`; the loop skips the term (`continue`) when its frequency
`f` in the document is 0. -/
def bm25TermScore (k1 b avgdl : ℚ) (docTokens : List String)
    (idf : String → ℚ) (t : String) : ℚ :=
  let f : ℚ := (docTokens.count t : ℚ)
  if f = 0 then 0
  else idf t * ((f * (k1 + 1)) /
    (f + k1 * (1 - b + b * (docTokens.length : ℚ) / avgdl)))

/-- `_get_scores`: BM25 score of every corpus document against the
(tokenized) query. -/
def bm25GetScores (k1 b : ℚ) (idf : String → ℚ)
    (corpus : List (List String)) (queryTokens : List String) : List ℚ :=
  corpus.map (fun doc =>
    ((bm25Filter queryTokens).map
      (bm25TermScore k1 b (bm25Avgdl corpus) doc idf)).sum)

/-- Ordering used by `_get_relevant_documents`: the source runs
`scored_docs.sort(key=lambda x: x[0], reverse=True)`, Python's stable sort
by descending score, over a list whose document ids strictly increase;
on such a list the stable sort coincides with the unique ordering by
(score descending, id ascending), which is this relation. -/
def bm25Le (a b : ℚ × ℕ) : Prop :=
  b.1 < a.1 ∨ (a.1 = b.1 ∧ a.2 ≤ b.2)

instance : DecidableRel bm25Le := fun a b => by
  unfold bm25Le
  infer_instance

instance : IsTotal (ℚ × ℕ) bm25Le := ⟨by
  intro a b
  unfold bm25Le
  rcases lt_trichotomy a.1 b.1 with h | h | h
  · right
    left
    exact h
  · rcases Nat.le_total a.2 b.2 with h2 | h2
    · left
      right
      exact ⟨h, h2⟩
    · right
      right
      exact ⟨h.symm, h2⟩
  · left
    left
    exact h⟩

instance : IsTrans (ℚ × ℕ) bm25Le := ⟨by
  intro a b c hab hbc
  unfold bm25Le at *
  rcases hab with h | ⟨h, h2⟩ <;> rcases hbc with g | ⟨g, g2⟩
  · left
    exact lt_trans g h
  · left
    exact g ▸ h
  · left
    exact h ▸ g
  · right
    exact ⟨h.trans g, le_trans h2 g2⟩⟩

/-- `_get_relevant_documents`: scores are zipped with the 0-based ids
(`self._doc_ids = list(range(N))`), sorted by descending score (ties by
corpus order, see `bm25Le`), truncated to `top_k`, and zero-score entries
are dropped (`if score > 0`); the result lists the indices of the returned
`self.documents[doc_id]`. -/
def bm25Retrieve (k1 b : ℚ) (idf : String → ℚ) (topK : ℕ)
    (corpus : List (List String)) (queryTokens : List String) : List ℕ :=
  let scores := bm25GetScores k1 b idf corpus queryTokens
  let scored := scores.zip (List.range corpus.length)
  let sorted := List.insertionSort bm25Le scored
  ((sorted.take topK).filter (fun p => 0 < p.1)).map (·.2)

/-- Score formula exactly as the claim writes it,
`idf(t) · f(t,D)·(k1+1) / (f(t,D) + k1·(1 − b + b·|D|/avgdl))`, summed over
the query's (filtered) tokens with no skipping of absent terms. -/
def bm25SpecScore (k1 b avgdl : ℚ) (docTokens : List String)
    (idf : String → ℚ) (queryTokens : List String) : ℚ :=
  ((bm25Filter queryTokens).map (fun t =>
    idf t * (((docTokens.count t : ℚ) * (k1 + 1)) /
      ((docTokens.count t : ℚ) +
        k1 * (1 - b + b * (docTokens.length : ℚ) / avgdl))))).sum

/-- Specification-side ranking, following the claim's words: documents
ordered by descending claimed score with ties broken by original corpus
order, documents with total score 0 excluded, and the rest truncated to
`top_k`. -/
def bm25SpecRanking (k1 b : ℚ) (idf : String → ℚ) (topK : ℕ)
    (corpus : List (List String)) (queryTokens : List String) : List ℕ :=
  let scored := (corpus.map (fun doc =>
    bm25SpecScore k1 b (bm25Avgdl corpus) doc idf queryTokens)).zip
      (List.range corpus.length)
  let sorted := List.insertionSort bm25Le scored
  ((sorted.filter (fun p => p.1 ≠ 0)).take topK).map (·.2)

/-!
## Enhanced retriever façade

Embeds `EnhancedRetriever`
(`src/rag_agent/retrieval/base_enhanced_retriever.py`).  The engine's
vector store, the hybrid retriever's `invoke` and the reranker's `rerank`
are external callables and enter as function parameters.  Document identity
for deduplication is the pair of the page content and the sorted metadata
items, which the source hashes with `md5`; the hash is injective up to
collisions, so the hashed data itself is the key here.
-/

/-- A `langchain` document: page content plus string-valued metadata. -/
structure Doc where
  content : String
  metadata : List (String × String)
  deriving DecidableEq

/-- Python tuple order on metadata items, as used by
`sorted(doc.metadata.items())`. -/
def pairLe (a b : String × String) : Prop :=
  a.1 < b.1 ∨ (a.1 = b.1 ∧ a.2 ≤ b.2)

instance : DecidableRel pairLe := fun a b => by
  unfold pairLe
  infer_instance

/-- `_get_document_key`: the source hashes `f"{content}|{str(sorted(...))}"`
with md5; the key is modelled by the hashed data. -/
def docKey (d : Doc) : String × List (String × String) :=
  (d.content, List.insertionSort pairLe d.metadata)

/-- `_deduplicate_documents`: the first occurrence of each key is kept. -/
def dedupDocs (docs : List Doc) : List Doc :=
  (docs.foldl
    (fun (acc : List Doc × List (String × List (String × String))) doc =>
      let key := docKey doc
      if key ∈ acc.2 then acc else (acc.1 ++ [doc], acc.2 ++ [key]))
    ([], [])).1

/-- A metadata-filter value: exact match, list membership, or a callable. -/
inductive FilterVal where
  | exact : String → FilterVal
  | oneOf : List String → FilterVal
  | pred : (String → Bool) → FilterVal

/-- Metadata lookup (`doc.metadata[key]`; keys assumed unique). -/
def metaLookup (m : List (String × String)) (k : String) : Option String :=
  (m.find? (fun p => p.1 == k)).map (·.2)

/-- The per-document check of `_filter_by_metadata`: every filter key must
be present in the metadata and its value must match. -/
def matchesFilter (doc : Doc) (filt : List (String × FilterVal)) : Bool :=
  filt.all (fun kv =>
    match metaLookup doc.metadata kv.1 with
    | none => false
    | some dv =>
        match kv.2 with
        | .exact w => dv == w
        | .oneOf l => l.contains dv
        | .pred f => f dv)

/-- `_filter_by_metadata`. -/
def filterByMetadata (docs : List Doc)
    (filt : List (String × FilterVal)) : List Doc :=
  docs.filter (fun d => matchesFilter d filt)

/-- The attributes of an `EnhancedRetriever` instance that `retrieve`
reads. -/
structure Retriever where
  enableQueryExpansion : Bool
  enableHybridSearch : Bool
  enableReranking : Bool
  /-- `self.query_expander is not None` -/
  hasQueryExpander : Bool
  /-- `self._bm25_built` -/
  bm25Built : Bool
  /-- `self.hybrid_retriever` with its `invoke` -/
  hybridRetriever : Option (String → List Doc)
  /-- `self.engine.vectorstore`, exposing `similarity_search` -/
  vectorstore : Option (String → ℕ → List Doc)
  /-- `self.reranker` with its `rerank(query, docs, top_k)` -/
  reranker : Option (String → List Doc → ℕ → List Doc)

/-- `EnhancedRetriever.__init__`: the query expander exists iff expansion
is enabled, the BM25/hybrid retrievers start as `None` with
`_bm25_built = False`, and the reranker exists iff reranking is enabled. -/
def mkEnhancedRetriever (vs : Option (String → ℕ → List Doc))
    (enableQE enableHybrid enableRerank : Bool)
    (rr : String → List Doc → ℕ → List Doc) : Retriever :=
  { enableQueryExpansion := enableQE
    enableHybridSearch := enableHybrid
    enableReranking := enableRerank
    hasQueryExpander := enableQE
    bm25Built := false
    hybridRetriever := none
    vectorstore := vs
    reranker := if enableRerank then some rr else none }

/-- `_ensure_bm25_built`: a call on an already-built instance returns it
unchanged; otherwise a hybrid retriever built from the documents is
installed (`mk` stands for the `BM25Retriever` + `HybridRetriever`
construction) and the built flag is set. -/
def ensureBm25Built (r : Retriever) (documents : List Doc)
    (mk : List Doc → String → List Doc) : Retriever :=
  if r.bm25Built then r
  else { r with hybridRetriever := some (mk documents), bm25Built := true }

/-- Observable outcome of one `retrieve` call. -/
structure RetrieveTrace where
  queriesSearched : List String
  usedHybrid : Bool
  results : List Doc

/-- `EnhancedRetriever.retrieve`.  Step 1 computes the effective query set:
the query-expansion branch of the source logs
"查询扩展暂时禁用（异步兼容性问题）" and falls through (`pass`), so both
branches leave `queries_to_search = [query]`.  Step 2 searches per query —
hybrid when `enable_hybrid_search` holds and a hybrid retriever exists,
else the vector store (or nothing when it is `None`) — accumulating with
`extend`.  Steps 3–6 deduplicate, filter by metadata when one is supplied,
rerank when enabled and a reranker exists, and truncate to `top_k`.  The
method contains no call to `_ensure_bm25_built`. -/
def retrieve (r : Retriever) (query : String) (topK : ℕ)
    (enableQE enableHybrid enableRerank : Option Bool)
    (_enableMultiQuery _enableHyde : Bool)
    (metadataFilter : Option (List (String × FilterVal))) : RetrieveTrace :=
  let eqe := enableQE.getD r.enableQueryExpansion
  let ehs := enableHybrid.getD r.enableHybridSearch
  let err := enableRerank.getD r.enableReranking
  let queriesToSearch := if eqe && r.hasQueryExpander then [query] else [query]
  let hybridUsed := ehs && r.hybridRetriever.isSome
  let allResults :=
    if hybridUsed then
      queriesToSearch.foldl
        (fun acc q => acc ++ (r.hybridRetriever.getD (fun _ => [])) q) []
    else
      queriesToSearch.foldl
        (fun acc q => acc ++
          (match r.vectorstore with
           | some vs => vs q topK
           | none => []))
        []
  let uniqueDocs := dedupDocs allResults
  let uniqueDocs :=
    match metadataFilter with
    | some filt => filterByMetadata uniqueDocs filt
    | none => uniqueDocs
  let uniqueDocs :=
    match (if err then r.reranker else none) with
    | some rerank => rerank query uniqueDocs topK
    | none => uniqueDocs
  { queriesSearched := queriesToSearch
    usedHybrid := hybridUsed
    results := uniqueDocs.take topK }

/-!
## Diagnosis schema

Embeds `DiagnosisFields` (`src/rag_agent/schemas/diagnosis.py`).
-/

/-- Python `int(s)` applied to a string: surrounding whitespace stripped,
an optional sign, then decimal digits; `none` models the `ValueError`
branch.  (Digit-group underscores and non-ASCII decimal digits, which
CPython also accepts, are not used by any concrete input below.) -/
def parseIntStr (s : String) : Option Int :=
  let t := ((s.toList.dropWhile Char.isWhitespace).reverse.dropWhile
    Char.isWhitespace).reverse
  match t with
  | [] => none
  | c :: rest =>
      let signDigits : Int × List Char :=
        if c = '-' then (-1, rest)
        else if c = '+' then (1, rest)
        else (1, c :: rest)
      if signDigits.2.length ≠ 0 && signDigits.2.all Char.isDigit then
        some (signDigits.1 *
          ((signDigits.2.foldl (fun acc ch => acc * 10 + (ch.toNat - 48)) 0 : ℕ) : Int))
      else none

/-- The coercion `from_llm_response` performs on `health_score` and
`issue_count`: a string value is replaced by its parsed integer, or by 0
when `int(...)` raises `ValueError`; any other shape is left alone. -/
def coerceIntField (d : Dict) (k : String) : Dict :=
  match dget d k with
  | some (.vStr s) =>
      match parseIntStr s with
      | some n => dset d k (.vInt n)
      | none => dset d k (.vInt 0)
  | _ => d

/-- Validator of an optional `str` field of the pydantic model: absent
means the declared default; present requires a string. -/
def strField (d : Dict) (k dflt : String) : Except String String :=
  match dget d k with
  | none => .ok dflt
  | some (.vStr s) => .ok s
  | some _ => .error k

/-- Validator of the required `device_name: str` field. -/
def requiredStrField (d : Dict) (k : String) : Except String String :=
  match dget d k with
  | some (.vStr s) => .ok s
  | _ => .error k

/-- Validator of a `Literal[...]` field. -/
def enumField (d : Dict) (k : String) (allowed : List String)
    (dflt : String) : Except String String :=
  match dget d k with
  | none => .ok dflt
  | some (.vStr s) => if s ∈ allowed then .ok s else .error k
  | some _ => .error k

/-- Validator of `health_score: int = Field(ge=0, le=100, default=0)`. -/
def intGeLeField (d : Dict) (k : String) (lo hi dflt : Int) :
    Except String Int :=
  match dget d k with
  | none => .ok dflt
  | some (.vInt n) => if lo ≤ n ∧ n ≤ hi then .ok n else .error k
  | some _ => .error k

/-- Validator of `issue_count: int = Field(ge=0, default=0)`. -/
def intGeField (d : Dict) (k : String) (lo dflt : Int) :
    Except String Int :=
  match dget d k with
  | none => .ok dflt
  | some (.vInt n) => if lo ≤ n then .ok n else .error k
  | some _ => .error k

/-- The plain-`str` fields of `DiagnosisFields` that follow `issue_count`
in declaration order (all defaulting to `""`). -/
def diagTailFieldNames : List String :=
  ["abstract", "device_basic_info", "operating_environment",
   "maintenance_history", "monitoring_data_summary", "key_metrics_analysis",
   "trend_analysis", "anomaly_detection", "fault_description",
   "fault_cause_analysis", "fault_location", "urgent_measures",
   "maintenance_plan", "spare_parts_suggestion", "current_risks",
   "potential_risks", "risk_control", "conclusion_and_recommendations",
   "technical_parameters", "related_standards", "diagnosis_method"]

/-- Validation of a run of plain-`str` fields: each one through
`strField` with default `""`, collected in order. -/
def strFieldsFor (d : Dict) : List String → Except String Dict
  | [] => .ok []
  | k :: ks => do
      let s ← strField d k ""
      let rest ← strFieldsFor d ks
      .ok ((k, Val.vStr s) :: rest)

/-- `DiagnosisFields.model_validate` followed by `model_dump`: each
declared field is validated (extra input keys are ignored, pydantic's
default) and the dict of all declared fields is returned in declaration
order.  `.error` models a `ValidationError`. -/
def modelValidateDump (d : Dict) : Except String Dict := do
  let title ← strField d "title" "设备健康诊断报告"
  let reportId ← strField d "report_id" "DX-00000000-001"
  let deviceName ← requiredStrField d "device_name"
  let deviceModel ← strField d "device_model" "未知型号"
  let location ← strField d "location" "未知位置"
  let diagnosisDate ← strField d "diagnosis_date" ""
  let dataRange ← strField d "data_range" ""
  let healthScore ← intGeLeField d "health_score" 0 100 0
  let healthStatus ← enumField d "health_status" ["正常", "警告", "异常", "严重"] "正常"
  let riskLevel ← enumField d "risk_level" ["低", "中", "高"] "低"
  let issueCount ← intGeField d "issue_count" 0 0
  let tail ← strFieldsFor d diagTailFieldNames
  .ok ([("title", Val.vStr title), ("report_id", Val.vStr reportId),
    ("device_name", Val.vStr deviceName), ("device_model", Val.vStr deviceModel),
    ("location", Val.vStr location), ("diagnosis_date", Val.vStr diagnosisDate),
    ("data_range", Val.vStr dataRange), ("health_score", Val.vInt healthScore),
    ("health_status", Val.vStr healthStatus), ("risk_level", Val.vStr riskLevel),
    ("issue_count", Val.vInt issueCount)] ++ tail)

/-- `DiagnosisFields.from_llm_response`: coerce the two integer-like
fields, then validate; the value is the validated record's `model_dump`. -/
def fromLlmResponse (d : Dict) : Except String Dict :=
  modelValidateDump (coerceIntField (coerceIntField d "health_score") "issue_count")

/-!
## Diagnosis pipeline nodes

Embeds the nodes of `src/rag_agent/agents/diagnosis_agent.py`.  Each node
reads a snapshot of the state and returns a partial-update dict; `.error`
in an `Except String Dict` models the corresponding LLM call (or the JSON
parsing of its reply) raising.
-/

/-- `DiagnosisState` as the nodes use it: the per-stage partial maps are
read via `state.get(key, {})`, so an unset key and `{}` coincide; the
`device_name` key distinguishes unset (`none`) from present. -/
structure DiagState where
  query : String := ""
  deviceName : Option String := none
  documents : List Doc := []
  coreAssessment : Dict := []
  faultAnalysis : Dict := []
  riskAnalysis : Dict := []
  deviceInfoFields : Dict := []
  monitoringFields : Dict := []
  maintenanceFields : Dict := []
  validationIssues : List Val := []
  diagnosisData : Dict := []
  reportPath : String := ""

/-- A node's partial-update dict: the keys it contains overwrite the
state, the rest of the state is untouched. -/
structure StateUpdate where
  documents : Option (List Doc) := none
  deviceName : Option String := none
  coreAssessment : Option Dict := none
  faultAnalysis : Option Dict := none
  riskAnalysis : Option Dict := none
  deviceInfoFields : Option Dict := none
  monitoringFields : Option Dict := none
  maintenanceFields : Option Dict := none
  validationIssues : Option (List Val) := none
  diagnosisData : Option Dict := none
  reportPath : Option String := none

/-- The orchestrator's merge of a node's partial update into the state. -/
def applyUpdate (s : DiagState) (u : StateUpdate) : DiagState :=
  { query := s.query
    deviceName := match u.deviceName with
      | some v => some v
      | none => s.deviceName
    documents := u.documents.getD s.documents
    coreAssessment := u.coreAssessment.getD s.coreAssessment
    faultAnalysis := u.faultAnalysis.getD s.faultAnalysis
    riskAnalysis := u.riskAnalysis.getD s.riskAnalysis
    deviceInfoFields := u.deviceInfoFields.getD s.deviceInfoFields
    monitoringFields := u.monitoringFields.getD s.monitoringFields
    maintenanceFields := u.maintenanceFields.getD s.maintenanceFields
    validationIssues := u.validationIssues.getD s.validationIssues
    diagnosisData := u.diagnosisData.getD s.diagnosisData
    reportPath := u.reportPath.getD s.reportPath }

/-- `retrieval_node`: `device_name = state.get("device_name") or query`;
both the success path and the engine fallback return the same two keys,
with the retrieved documents entering as `retrieved` (the retriever does
not touch the LLM: the expansion branch of `retrieve` is disabled). -/
def retrievalNode (retrieved : List Doc) (s : DiagState) : StateUpdate :=
  let deviceName :=
    match s.deviceName with
    | some v => if v = "" then s.query else v
    | none => s.query
  { documents := some retrieved, deviceName := some deviceName }

/-- `core_assessment_node`: empty documents short-circuit (before any LLM
call) to the degraded 0/异常/高 default; otherwise the LLM result is
stored, a raised call being caught and replaced by the 50/警告/中
default. -/
def coreAssessmentNode (llm : Except String Dict) (s : DiagState) :
    StateUpdate :=
  if s.documents.isEmpty then
    { coreAssessment := some [("health_score", Val.vInt 0),
        ("health_status", Val.vStr "异常"), ("risk_level", Val.vStr "高"),
        ("issue_count", Val.vInt 0)] }
  else
    match llm with
    | .ok result => { coreAssessment := some result }
    | .error _ => { coreAssessment := some [("health_score", Val.vInt 50),
        ("health_status", Val.vStr "警告"), ("risk_level", Val.vStr "中"),
        ("issue_count", Val.vInt 0)] }

/-- `parallel_analysis_node`: each of the four gathered tasks catches its
own failure and yields `{}`; the four results land on disjoint keys. -/
def parallelAnalysisNode (fault risk deviceInfo monitoring : Except String Dict)
    (_s : DiagState) : StateUpdate :=
  { faultAnalysis := some (fault.toOption.getD [])
    riskAnalysis := some (risk.toOption.getD [])
    deviceInfoFields := some (deviceInfo.toOption.getD [])
    monitoringFields := some (monitoring.toOption.getD []) }

/-- `maintenance_node`: the LLM result, or `{}` when the call raises. -/
def maintenanceNode (llm : Except String Dict) (_s : DiagState) : StateUpdate :=
  { maintenanceFields := some (llm.toOption.getD []) }

/-- `i.get("problem", "")` for one issue item. -/
def issueProblem (item : List (String × Val)) : Val :=
  (dget item "problem").getD (.vStr "")

/-- `validation_node`.  The source copies the six partial maps into a
local `all_data`, merges the LLM's `corrections` into that local dict —
and then returns only `{"validation_issues": ...}`, so the corrected
`all_data` is a dead store.  A type surprise inside the `try` body
(a truthy non-dict `corrections`, a non-list `issues`, a non-dict issue
item) raises and is caught like an LLM failure, yielding an empty list. -/
def validationNode (llm : Except String Dict) (_s : DiagState) : StateUpdate :=
  match llm with
  | .error _ => { validationIssues := some [] }
  | .ok result =>
      let corrections := (dget result "corrections").getD (.vDict [])
      if corrections.truthy && !corrections.isDict then
        { validationIssues := some [] }
      else
        match (dget result "issues").getD (.vList []) with
        | .vList items =>
            if items.all Val.isDict then
              { validationIssues := some (items.map (fun i =>
                  match i with
                  | .vDict m => issueProblem m
                  | _ => .vStr "")) }
            else { validationIssues := some [] }
        | _ => { validationIssues := some [] }

/-- The six partial maps layered in the order `merge_fields_node` unpacks
them (`**device_info, **core, **monitoring, **fault, **risk,
**maintenance`): under last-match lookup this is concatenation. -/
def mergeLayered (s : DiagState) : Dict :=
  s.deviceInfoFields ++ (s.coreAssessment ++ (s.monitoringFields ++
    (s.faultAnalysis ++ (s.riskAnalysis ++ s.maintenanceFields))))

/-- The dict `merge_fields_node` builds before schema validation: a
`device_name` seed from `state.get("device_name", "未知设备")`, the six
partial maps layered in source order, the empty-`device_name` fixup
(`if not merged.get("device_name") or merged.get("device_name") == ""`),
and the removal of `assessment_reasoning`. -/
def mergeMerged (s : DiagState) : Dict :=
  let deviceName := s.deviceName.getD "未知设备"
  let merged := [("device_name", Val.vStr deviceName)] ++ mergeLayered s
  let merged :=
    if !(((dget merged "device_name").map Val.truthy).getD false) then
      dset merged "device_name" (Val.vStr deviceName)
    else merged
  dpop merged "assessment_reasoning"

/-- `merge_fields_node`: the merged dict goes through
`DiagnosisFields.from_llm_response`; a `ValidationError` is caught and the
raw merged dict returned instead. -/
def mergeFieldsNode (s : DiagState) : StateUpdate :=
  match fromLlmResponse (mergeMerged s) with
  | .ok dump => { diagnosisData := some dump }
  | .error _ => { diagnosisData := some (mergeMerged s) }

/-- Result dict of the external report emitter
(`generate_diagnosis_report_async`). -/
structure EmitterResult where
  success : Bool
  outputPath : Option String := none
  errorMsg : Option String := none

/-- `report_node`; the second component records whether the external
emitter was invoked on this run. -/
def reportNode (emitter : Except String EmitterResult) (s : DiagState) :
    StateUpdate × Bool :=
  if s.diagnosisData.isEmpty then
    ({ reportPath := some "诊断数据为空，无法生成报告" }, false)
  else
    match emitter with
    | .error e => ({ reportPath := some ("报告生成失败: " ++ e) }, true)
    | .ok result =>
        if !result.success then
          ({ reportPath := some ("报告生成失败: " ++ (result.errorMsg.getD "未知错误")) }, true)
        else
          ({ reportPath := some (result.outputPath.getD "") }, true)

/-- External environment of one diagnosis run: the documents the retrieval
stage produces, one outcome per LLM-backed call (`.error` models the call
raising), and the report emitter's outcome. -/
structure DiagEnv where
  retrieved : List Doc
  coreLLM : Except String Dict
  faultLLM : Except String Dict
  riskLLM : Except String Dict
  deviceLLM : Except String Dict
  monitoringLLM : Except String Dict
  maintenanceLLM : Except String Dict
  validationLLM : Except String Dict
  emitter : Except String EmitterResult

/-- Every LLM-backed call of the environment raises. -/
def DiagEnv.llmAlwaysRaises (env : DiagEnv) : Prop :=
  (∃ e, env.coreLLM = .error e) ∧ (∃ e, env.faultLLM = .error e) ∧
  (∃ e, env.riskLLM = .error e) ∧ (∃ e, env.deviceLLM = .error e) ∧
  (∃ e, env.monitoringLLM = .error e) ∧ (∃ e, env.maintenanceLLM = .error e) ∧
  (∃ e, env.validationLLM = .error e)

/-- Modelled from the spec: the state after the first five nodes of the
sequential driver of §4.5 — retrieval, core assessment, parallel analysis,
maintenance, validation, in that strict order, each node's partial update
merged into the state before the next node runs.  The driver itself is not
present under `src` (`graphs/diagnosis_graph.py` imports node names that do
not exist and `graphs/main_graph.py` wires only four of the seven nodes);
every node is embedded from `src/rag_agent/agents/diagnosis_agent.py`
above. -/
def diagAfterValidation (env : DiagEnv) (query : String) : DiagState :=
  let s0 : DiagState := { query := query }
  let s1 := applyUpdate s0 (retrievalNode env.retrieved s0)
  let s2 := applyUpdate s1 (coreAssessmentNode env.coreLLM s1)
  let s3 := applyUpdate s2 (parallelAnalysisNode env.faultLLM env.riskLLM
    env.deviceLLM env.monitoringLLM s2)
  let s4 := applyUpdate s3 (maintenanceNode env.maintenanceLLM s3)
  applyUpdate s4 (validationNode env.validationLLM s4)

/-- Modelled from the spec: the full seven-node sequential driver
(`run_diagnosis` of §4.5/§6, not present under `src`): the five nodes of
`diagAfterValidation`, then merge, then report. -/
def runDiagnosis (env : DiagEnv) (query : String) : DiagState :=
  let s5 := diagAfterValidation env query
  let s6 := applyUpdate s5 (mergeFieldsNode s5)
  applyUpdate s6 (reportNode env.emitter s6).1

/-!
## Concrete instances used by counterexamples and witnesses
-/

/-- A one-document vector store for the retrieval examples. -/
def vsEx : Option (String → ℕ → List Doc) :=
  some (fun _ _ => [⟨"变压器的正常运行温度一般在60-85摄氏度之间。", []⟩])

/-- An identity reranker for the retrieval examples. -/
def rrId : String → List Doc → ℕ → List Doc := fun _ l _ => l

/-- The final field map exactly as the C7 claim describes it: the six
partial maps layered with later layers winning on key collision, then the
`assessment_reasoning` key removed. -/
def claimC7Layer (s : DiagState) : Dict :=
  dpop (mergeLayered s) "assessment_reasoning"

/-- State for the C3 demonstration: the working field set carries
`health_score = 40`. -/
def sC3 : DiagState :=
  { query := "q"
    deviceName := some "变压器"
    coreAssessment := [("health_score", Val.vInt 40)] }

/-- A successful validation LLM reply proposing the correction
`health_score → 80` (and no issues). -/
def validationLLMC3 : Except String Dict :=
  .ok [("issues", .vList []),
       ("corrections", .vDict [("health_score", .vInt 80)])]

/-- State for the C7 counterexample: retrieval set `device_name`, all six
partial maps are empty. -/
def sC7 : DiagState :=
  { query := "q"
    deviceName := some "主变压器" }

/-- State for the C8 witness: retrieval set `device_name` and the device
info node contributed an empty one. -/
def sC8 : DiagState :=
  { query := "q"
    deviceName := some "主变压器"
    deviceInfoFields := [("device_name", Val.vStr "")] }

/-- State for the C9 counterexample: the upstream LLM put the
out-of-range `health_score = 150` into the core assessment. -/
def sC9 : DiagState :=
  { query := "q"
    deviceName := some "变压器"
    coreAssessment := [("health_score", Val.vInt 150)] }

/-- An environment whose every LLM call raises: retrieval still returns
`docs` (it does not touch the LLM) and the emitter behaves as `em`. -/
def mkFailingLLMEnv (docs : List Doc) (e1 e2 e3 e4 e5 e6 e7 : String)
    (em : Except String EmitterResult) : DiagEnv :=
  { retrieved := docs
    coreLLM := .error e1
    faultLLM := .error e2
    riskLLM := .error e3
    deviceLLM := .error e4
    monitoringLLM := .error e5
    maintenanceLLM := .error e6
    validationLLM := .error e7
    emitter := em }

/-- The C4 counterexample environment: one retrieved document, every LLM
call raising, the report emitter raising as well. -/
def envC4 : DiagEnv :=
  mkFailingLLMEnv [⟨"变压器文档", []⟩] "LLM异常" "LLM异常" "LLM异常"
    "LLM异常" "LLM异常" "LLM异常" "LLM异常" (.error "无LaTeX服务")

/-- The degraded core-assessment dict of the empty-documents branch of
`core_assessment_node`. -/
def coreDefaultEmpty : Dict :=
  [("health_score", Val.vInt 0), ("health_status", Val.vStr "异常"),
   ("risk_level", Val.vStr "高"), ("issue_count", Val.vInt 0)]

/-- The degraded core-assessment dict of the caught-exception branch of
`core_assessment_node`. -/
def coreDefaultFail : Dict :=
  [("health_score", Val.vInt 50), ("health_status", Val.vStr "警告"),
   ("risk_level", Val.vStr "中"), ("issue_count", Val.vInt 0)]

/-- The state reached after validation on a degraded run of query
"变压器" (documents aside): only `device_name` and the core assessment
are populated. -/
def s5Degraded (core : Dict) : DiagState :=
  { query := "变压器"
    deviceName := some "变压器"
    coreAssessment := core }

/-- Input dict for the C9 witness: `health_score` arrives as the numeral
string "85". -/
def dW : Dict :=
  [("device_name", Val.vStr "变压器"), ("health_score", Val.vStr "85")]

/-- The dump `from_llm_response` produces on `dW`: every declared field at
its default except the two supplied ones, with `health_score` coerced from
"85" to the integer 85. -/
def dumpW : Dict :=
  [("title", Val.vStr "设备健康诊断报告"),
   ("report_id", Val.vStr "DX-00000000-001"),
   ("device_name", Val.vStr "变压器"), ("device_model", Val.vStr "未知型号"),
   ("location", Val.vStr "未知位置"), ("diagnosis_date", Val.vStr ""),
   ("data_range", Val.vStr ""), ("health_score", Val.vInt 85),
   ("health_status", Val.vStr "正常"), ("risk_level", Val.vStr "低"),
   ("issue_count", Val.vInt 0)] ++
  diagTailFieldNames.map (fun k => (k, Val.vStr ""))

/-!
## Theorems

Everything below is proof; all embedded definitions are above.
-/

section DictLemmas

theorem dget_append (a b : Dict) (k : String) :
    dget (a ++ b) k = ((dget b k).or (dget a k)) := by
  unfold dget
  rw [List.reverse_append, List.find?_append]
  cases h : List.find? (fun p => p.1 == k) b.reverse with
  | none => simp
  | some p => simp

theorem dget_append_of_none {b : Dict} {k : String} (h : dget b k = none)
    (a : Dict) : dget (a ++ b) k = dget a k := by
  rw [dget_append, h, Option.none_or]

theorem dget_append_of_some {b : Dict} {k : String} {v : Val}
    (h : dget b k = some v) (a : Dict) : dget (a ++ b) k = some v := by
  rw [dget_append, h]
  rfl

theorem dget_single (k : String) (v : Val) : dget [(k, v)] k = some v := by
  simp [dget, List.find?]

theorem dget_single_ne (k k' : String) (v : Val) (h : k' ≠ k) :
    dget [(k, v)] k' = none := by
  have hb : (k == k') = false := by simp [Ne.symm h]
  simp [dget, List.find?, hb]

theorem dget_dset_self (d : Dict) (k : String) (v : Val) :
    dget (dset d k v) k = some v := by
  unfold dset
  exact dget_append_of_some (dget_single k v) d

theorem dget_dset_ne (d : Dict) (k k' : String) (v : Val) (h : k' ≠ k) :
    dget (dset d k v) k' = dget d k' := by
  unfold dset
  exact dget_append_of_none (dget_single_ne k k' v h) d

theorem dget_dpop_self (d : Dict) (k : String) : dget (dpop d k) k = none := by
  unfold dget dpop
  rw [Option.map_eq_none', List.find?_eq_none]
  intro p hp
  rw [List.mem_reverse, List.mem_filter] at hp
  simpa using hp.2

theorem find?_filter_imp {α : Type} (l : List α) (p q : α → Bool)
    (h : ∀ a, p a = true → q a = true) : (l.filter q).find? p = l.find? p := by
  induction l with
  | nil => rfl
  | cons a t ih =>
      cases hq : q a with
      | true =>
          rw [List.filter_cons_of_pos hq]
          cases hp : p a with
          | true =>
              rw [List.find?_cons_of_pos _ hp, List.find?_cons_of_pos _ hp]
          | false =>
              rw [List.find?_cons_of_neg _ (by simp [hp]),
                List.find?_cons_of_neg _ (by simp [hp]), ih]
      | false =>
          rw [List.filter_cons_of_neg (by simp [hq])]
          have hp : p a = false := by
            cases hpa : p a
            · rfl
            · exact absurd (h a hpa) (by simp [hq])
          rw [List.find?_cons_of_neg _ (by simp [hp]), ih]

theorem dget_dpop_ne (d : Dict) (k k' : String) (h : k' ≠ k) :
    dget (dpop d k) k' = dget d k' := by
  unfold dget dpop
  rw [← List.filter_reverse]
  rw [find?_filter_imp]
  intro p hp
  simp only [beq_iff_eq] at hp
  simp [hp, h]

theorem dget_cons_ne (p : String × Val) (d : Dict) (k : String)
    (h : p.1 ≠ k) : dget (p :: d) k = dget d k := by
  have hrw : (p :: d) = [p] ++ d := rfl
  rw [hrw, dget_append]
  cases hb : dget d k with
  | none =>
      rw [Option.none_or]
      have hbp : (p.1 == k) = false := by simp [h]
      simp [dget, List.find?, hbp]
  | some v => rfl

end DictLemmas

/-- C6 (amended): for every pair of rank maps, every `alpha ∈ [0,1]` and
every smoothing constant `k > 0`, a document with strictly lower rank than
another in both maps gets a strictly greater fused RRF score; and a
document present in only one map is scored by that map's term alone, which
is positive whenever that map's weight (`alpha`, resp. `1 − alpha`) is
positive. -/
theorem rrf_monotonicity_and_presence
    (r1 r2 : String → Option ℕ) (alpha k : ℚ) (A B : String)
    (a1 a2 b1 b2 : ℕ) (h0 : 0 ≤ alpha) (h1 : alpha ≤ 1) (hk : 0 < k) :
    (r1 A = some a1 → r2 A = some a2 → r1 B = some b1 → r2 B = some b2 →
      a1 < b1 → a2 < b2 →
      rrfScore r1 r2 alpha k B < rrfScore r1 r2 alpha k A) ∧
    (0 < alpha → r1 A = some a1 → r2 A = none →
      0 < rrfScore r1 r2 alpha k A) ∧
    (alpha < 1 → r1 A = none → r2 A = some a2 →
      0 < rrfScore r1 r2 alpha k A) := by
  have hpos : ∀ n : ℕ, (0:ℚ) < k + n := fun n =>
    add_pos_of_pos_of_nonneg hk (Nat.cast_nonneg n)
  have hinv : ∀ m n : ℕ, m < n → 1 / (k + (n:ℚ)) < 1 / (k + (m:ℚ)) := by
    intro m n hmn
    apply one_div_lt_one_div_of_lt (hpos m)
    have hc : (m:ℚ) < n := by exact_mod_cast hmn
    linarith
  refine ⟨?_, ?_, ?_⟩
  · intro hA1 hA2 hB1 hB2 hb1 hb2
    unfold rrfScore
    rw [hA1, hA2, hB1, hB2]
    dsimp only
    rcases eq_or_lt_of_le h0 with h | h
    · rw [← h]
      have d2 := hinv a2 b2 hb2
      simp only [zero_mul, sub_zero, one_mul, zero_add]
      exact d2
    · have d1 := hinv a1 b1 hb1
      have d2 := hinv a2 b2 hb2
      have e1 : alpha * (1 / (k + (b1:ℚ))) < alpha * (1 / (k + (a1:ℚ))) :=
        mul_lt_mul_of_pos_left d1 h
      have e2 : (1 - alpha) * (1 / (k + (b2:ℚ))) ≤
          (1 - alpha) * (1 / (k + (a2:ℚ))) :=
        mul_le_mul_of_nonneg_left d2.le (by linarith)
      exact add_lt_add_of_lt_of_le e1 e2
  · intro ha hA1 hA2
    unfold rrfScore
    rw [hA1, hA2]
    dsimp only
    have hi : 0 < 1 / (k + (a1:ℚ)) := one_div_pos.mpr (hpos a1)
    rw [add_zero]
    exact mul_pos ha hi
  · intro ha hA1 hA2
    unfold rrfScore
    rw [hA1, hA2]
    dsimp only
    have hi : 0 < 1 / (k + (a2:ℚ)) := one_div_pos.mpr (hpos a2)
    rw [zero_add]
    exact mul_pos (by linarith : (0:ℚ) < 1 - alpha) hi

/-- C6 counterexample: with `alpha = 0 ∈ [0,1]` and `k = 60 > 0`, a
document present only in the first (dense) rank map receives fused score
0 — not a positive score — so the claim as stated is false. -/
theorem rrf_single_list_zero_counterexample :
    (0:ℚ) ≤ 0 ∧ (0:ℚ) ≤ 1 ∧ (0:ℚ) < 60 ∧
    rrfRanksDenseOnly "A" = some 0 ∧ rrfRanksEmpty "A" = none ∧
    ¬ (0 < rrfScore rrfRanksDenseOnly rrfRanksEmpty 0 60 "A") := by
  refine ⟨le_refl 0, by norm_num, by norm_num, rfl, rfl, ?_⟩
  have hv : rrfScore rrfRanksDenseOnly rrfRanksEmpty 0 60 "A"
      = 0 * (1 / (60 + (0:ℚ))) + 0 := rfl
  rw [hv]
  norm_num

/-- Witness for C6 at concrete rank maps, weight 1/2 and `k = 60`:
document "A" ranks 0/0, "B" ranks 1/2, and "C" appears only in the first
map at rank 2. -/
theorem rrf_monotonicity_and_presence_witness :
    rrfScore rrfRanks1ex rrfRanks2ex (1/2) 60 "B" <
      rrfScore rrfRanks1ex rrfRanks2ex (1/2) 60 "A" ∧
    0 < rrfScore rrfRanks1ex rrfRanks2ex (1/2) 60 "C" := by
  constructor
  · exact (rrf_monotonicity_and_presence rrfRanks1ex rrfRanks2ex (1/2) 60
      "A" "B" 0 0 1 2 (by norm_num) (by norm_num) (by norm_num)).1
      rfl rfl rfl rfl (by norm_num) (by norm_num)
  · exact (rrf_monotonicity_and_presence rrfRanks1ex rrfRanks2ex (1/2) 60
      "C" "B" 2 0 0 0 (by norm_num) (by norm_num) (by norm_num)).2.1
      (by norm_num) rfl rfl

theorem bm25_term_eq_formula (k1 b avgdl : ℚ) (doc : List String)
    (idf : String → ℚ) (t : String) :
    bm25TermScore k1 b avgdl doc idf t =
      idf t * (((doc.count t : ℚ) * (k1 + 1)) /
        ((doc.count t : ℚ) + k1 * (1 - b + b * (doc.length : ℚ) / avgdl))) := by
  unfold bm25TermScore
  dsimp only
  by_cases h : ((doc.count t : ℚ)) = 0
  · rw [if_pos h, h]
    simp
  · rw [if_neg h]

theorem bm25_scores_eq (corpus : List (List String))
    (queryTokens : List String) (idf : String → ℚ) :
    bm25GetScores (3/2) (3/4) idf corpus queryTokens =
      corpus.map (fun doc =>
        bm25SpecScore (3/2) (3/4) (bm25Avgdl corpus) doc idf queryTokens) := by
  unfold bm25GetScores bm25SpecScore
  apply List.map_congr_left
  intro doc _
  congr 1
  apply List.map_congr_left
  intro t _
  exact bm25_term_eq_formula _ _ _ _ _ _

theorem bm25_avgdl_nonneg (corpus : List (List String)) :
    0 ≤ bm25Avgdl corpus := by
  unfold bm25Avgdl
  split
  · exact le_refl 0
  · positivity

theorem bm25_term_nonneg (avgdl : ℚ) (doc : List String) (idf : String → ℚ)
    (t : String) (ha : 0 ≤ avgdl) (hidf : 0 ≤ idf t) :
    0 ≤ bm25TermScore (3/2) (3/4) avgdl doc idf t := by
  unfold bm25TermScore
  dsimp only
  split
  · exact le_refl 0
  · apply mul_nonneg hidf
    apply div_nonneg
    · have := Nat.cast_nonneg (α := ℚ) (doc.count t)
      nlinarith
    · have h1 : 0 ≤ (3:ℚ)/4 * (doc.length : ℚ) / avgdl :=
        div_nonneg (by positivity) ha
      have h2 := Nat.cast_nonneg (α := ℚ) (doc.count t)
      nlinarith

theorem bm25_spec_score_nonneg (corpus : List (List String))
    (doc : List String) (idf : String → ℚ) (queryTokens : List String)
    (hidf : ∀ t, 0 ≤ idf t) :
    0 ≤ bm25SpecScore (3/2) (3/4) (bm25Avgdl corpus) doc idf queryTokens := by
  unfold bm25SpecScore
  apply List.sum_nonneg
  intro x hx
  rcases List.mem_map.mp hx with ⟨t, _, rfl⟩
  rw [← bm25_term_eq_formula]
  exact bm25_term_nonneg _ _ _ _ (bm25_avgdl_nonneg corpus) (hidf t)

theorem bm25_filter_pos_eq_takeWhile :
    ∀ {l : List (ℚ × ℕ)}, l.Pairwise bm25Le →
      l.filter (fun p => 0 < p.1) = l.takeWhile (fun p => 0 < p.1) := by
  intro l
  induction l with
  | nil => intro _; rfl
  | cons a t ih =>
      intro hl
      rcases List.pairwise_cons.mp hl with ⟨ha, ht⟩
      by_cases hp : 0 < a.1
      · rw [List.filter_cons_of_pos (by simpa using hp),
          List.takeWhile_cons_of_pos (by simpa using hp), ih ht]
      · rw [List.filter_cons_of_neg (by simpa using hp),
          List.takeWhile_cons_of_neg (by simpa using hp)]
        rw [List.filter_eq_nil_iff]
        intro x hx
        simp only [decide_eq_true_eq]
        intro hx1
        rcases ha x hx with hlt | ⟨heq, _⟩
        · exact hp (lt_trans hx1 hlt)
        · exact hp (heq ▸ hx1)

theorem takeWhile_take_comm {α : Type} (P : α → Bool) :
    ∀ (l : List α) (k : ℕ),
      (l.take k).takeWhile P = (l.takeWhile P).take k := by
  intro l
  induction l with
  | nil => intro k; simp
  | cons a t ih =>
      intro k
      cases k with
      | zero => simp
      | succ n =>
          rw [List.take_succ_cons]
          cases hp : P a with
          | true =>
              rw [List.takeWhile_cons_of_pos hp,
                List.takeWhile_cons_of_pos hp, List.take_succ_cons, ih]
          | false =>
              rw [List.takeWhile_cons_of_neg (by simp [hp]),
                List.takeWhile_cons_of_neg (by simp [hp])]
              simp

/-- C5: for a fixed non-empty corpus and query, `BM25Retriever` returns the
top-`top_k` documents ordered by descending score, the score being exactly
`Σ_{t∈Q} idf(t)·f(t,D)·(k1+1)/(f(t,D)+k1·(1−b+b·|D|/avgdl))` with
`k1 = 3/2` and `b = 3/4`; zero-score documents are excluded and ties are
broken by original corpus order (the nonnegativity of the IDF table, true
of the table the source builds, enters as the hypothesis `hidf`). -/
theorem bm25_retrieve_matches_spec (corpus : List (List String))
    (queryTokens : List String) (idf : String → ℚ) (topK : ℕ)
    (_hne : corpus ≠ []) (hidf : ∀ t, 0 ≤ idf t) :
    bm25GetScores (3/2) (3/4) idf corpus queryTokens =
      corpus.map (fun doc =>
        bm25SpecScore (3/2) (3/4) (bm25Avgdl corpus) doc idf queryTokens) ∧
    bm25Retrieve (3/2) (3/4) idf topK corpus queryTokens =
      bm25SpecRanking (3/2) (3/4) idf topK corpus queryTokens := by
  refine ⟨bm25_scores_eq corpus queryTokens idf, ?_⟩
  unfold bm25Retrieve bm25SpecRanking
  dsimp only
  rw [bm25_scores_eq corpus queryTokens idf]
  set pairs := (corpus.map fun doc =>
    bm25SpecScore (3/2) (3/4) (bm25Avgdl corpus) doc idf queryTokens).zip
      (List.range corpus.length) with hpairs
  set sorted := List.insertionSort bm25Le pairs with hsorteddef
  congr 1
  have hsorted : sorted.Pairwise bm25Le := List.sorted_insertionSort bm25Le pairs
  have hnn : ∀ p ∈ sorted, 0 ≤ p.1 := by
    intro p hpmem
    have hpm : p ∈ pairs :=
      (List.perm_insertionSort bm25Le pairs).subset hpmem
    obtain ⟨x, y⟩ := p
    have h1 := (List.of_mem_zip (hpairs ▸ hpm)).1
    rcases List.mem_map.mp h1 with ⟨doc, _, rfl⟩
    exact bm25_spec_score_nonneg corpus doc idf queryTokens hidf
  calc (sorted.take topK).filter (fun p => 0 < p.1)
      = (sorted.take topK).takeWhile (fun p => 0 < p.1) :=
        bm25_filter_pos_eq_takeWhile (hsorted.sublist (List.take_sublist topK sorted))
    _ = (sorted.takeWhile (fun p => 0 < p.1)).take topK :=
        takeWhile_take_comm _ sorted topK
    _ = (sorted.filter (fun p => 0 < p.1)).take topK := by
        rw [bm25_filter_pos_eq_takeWhile hsorted]
    _ = (sorted.filter (fun p => p.1 ≠ 0)).take topK := by
        congr 1
        apply List.filter_congr
        intro p hp
        have h0 := hnn p hp
        simp only [decide_eq_decide]
        constructor
        · intro h
          exact ne_of_gt h
        · intro h
          exact lt_of_le_of_ne h0 (Ne.symm h)

/-- Witness for C5: a concrete two-document corpus, a constant IDF table
and `top_k = 2`. -/
theorem bm25_retrieve_matches_spec_witness :
    bm25GetScores (3/2) (3/4) (fun _ => 1) [["温度", "过高"], ["温度"]] ["温度"] =
      [["温度", "过高"], ["温度"]].map (fun doc =>
        bm25SpecScore (3/2) (3/4) (bm25Avgdl [["温度", "过高"], ["温度"]])
          doc (fun _ => 1) ["温度"]) ∧
    bm25Retrieve (3/2) (3/4) (fun _ => 1) 2 [["温度", "过高"], ["温度"]] ["温度"] =
      bm25SpecRanking (3/2) (3/4) (fun _ => 1) 2 [["温度", "过高"], ["温度"]] ["温度"] :=
  bm25_retrieve_matches_spec [["温度", "过高"], ["温度"]] ["温度"] (fun _ => 1) 2
    (by decide) (fun _ => by norm_num)

/-- C1 (divergence demonstration): on a freshly constructed
`EnhancedRetriever` with hybrid search enabled, `retrieve` neither builds
the sparse index — the method never calls `_ensure_bm25_built`, so
`hybrid_retriever` is still `None` — nor fuses anything: the hybrid branch
is not taken, and the call returns exactly what it returns with hybrid
search disabled, i.e. dense search alone. -/
theorem enhanced_retrieve_hybrid_never_built
    (vs : Option (String → ℕ → List Doc)) (enableQE enableRerank : Bool)
    (rr : String → List Doc → ℕ → List Doc) (query : String) (topK : ℕ)
    (f1 f2 f3 : Option Bool) (mq hy : Bool)
    (mf : Option (List (String × FilterVal))) :
    (mkEnhancedRetriever vs enableQE true enableRerank rr).bm25Built = false ∧
    (retrieve (mkEnhancedRetriever vs enableQE true enableRerank rr) query
      topK f1 f2 f3 mq hy mf).usedHybrid = false ∧
    retrieve (mkEnhancedRetriever vs enableQE true enableRerank rr) query
      topK f1 f2 f3 mq hy mf =
    retrieve (mkEnhancedRetriever vs enableQE false enableRerank rr) query
      topK f1 f2 f3 mq hy mf := by
  refine ⟨rfl, ?_, ?_⟩
  · unfold retrieve mkEnhancedRetriever
    simp
  · unfold retrieve mkEnhancedRetriever
    simp

/-- C2 counterexample: with query expansion and multi-query generation
enabled (both at construction and per call), the effective query set of
`retrieve` is exactly `["变压器"]` — the original query alone — falsifying
the claim that it is not just `[query]`. -/
theorem effective_query_set_counterexample :
    (retrieve (mkEnhancedRetriever vsEx true false false rrId) "变压器" 5
      (some true) none none true false none).queriesSearched = ["变压器"] := rfl

/-- C2 (amended): the effective query set searched by `retrieve` is
exactly `[query]` regardless of the expansion flags — the query-expansion
branch of the source is disabled (it logs and falls through). -/
theorem effective_query_set_always_singleton
    (r : Retriever) (query : String) (topK : ℕ)
    (f1 f2 f3 : Option Bool) (mq hy : Bool)
    (mf : Option (List (String × FilterVal))) :
    (retrieve r query topK f1 f2 f3 mq hy mf).queriesSearched = [query] := by
  unfold retrieve
  dsimp only
  split <;> rfl

/-- C10: on a state whose `diagnosis_data` is empty, `report_node` returns
the sentinel "诊断数据为空，无法生成报告" as the report path, does not
invoke the external emitter, and its update leaves every other field of
the state unchanged. -/
theorem report_node_empty_data (s : DiagState)
    (e : Except String EmitterResult) (h : s.diagnosisData = []) :
    (reportNode e s).1 = { reportPath := some "诊断数据为空，无法生成报告" } ∧
    (reportNode e s).2 = false ∧
    (applyUpdate s (reportNode e s).1).query = s.query ∧
    (applyUpdate s (reportNode e s).1).deviceName = s.deviceName ∧
    (applyUpdate s (reportNode e s).1).documents = s.documents ∧
    (applyUpdate s (reportNode e s).1).coreAssessment = s.coreAssessment ∧
    (applyUpdate s (reportNode e s).1).faultAnalysis = s.faultAnalysis ∧
    (applyUpdate s (reportNode e s).1).riskAnalysis = s.riskAnalysis ∧
    (applyUpdate s (reportNode e s).1).deviceInfoFields = s.deviceInfoFields ∧
    (applyUpdate s (reportNode e s).1).monitoringFields = s.monitoringFields ∧
    (applyUpdate s (reportNode e s).1).maintenanceFields = s.maintenanceFields ∧
    (applyUpdate s (reportNode e s).1).validationIssues = s.validationIssues ∧
    (applyUpdate s (reportNode e s).1).diagnosisData = s.diagnosisData ∧
    (applyUpdate s (reportNode e s).1).reportPath = "诊断数据为空，无法生成报告" := by
  obtain ⟨q, dn, docs, d1, d2, d3, d4, d5, d6, vi, dd, rp⟩ := s
  dsimp only at h
  subst h
  exact ⟨rfl, rfl, rfl, rfl, rfl, rfl, rfl, rfl, rfl, rfl, rfl, rfl, rfl, rfl⟩

/-- Witness for C10 at the default state (whose `diagnosis_data` is `[]`)
and a raising emitter. -/
theorem report_node_empty_data_witness :
    (reportNode (Except.error "x") ({} : DiagState)).1 =
      { reportPath := some "诊断数据为空，无法生成报告" } ∧
    (reportNode (Except.error "x") ({} : DiagState)).2 = false :=
  ⟨(report_node_empty_data {} (.error "x") rfl).1,
   (report_node_empty_data {} (.error "x") rfl).2.1⟩

/-- C7 counterexample: with `device_name = "主变压器"` set at retrieval and
all six partial maps empty, the merge step outputs a dict whose
`device_name` is `"主变压器"`, while the pure layering the claim describes
yields a dict with no `device_name` at all. -/
theorem merge_layering_counterexample :
    dget (mergeMerged sC7) "device_name" = some (.vStr "主变压器") ∧
    dget (claimC7Layer sC7) "device_name" = none := ⟨rfl, rfl⟩

/-- C7 (amended): the merge step's output agrees with the claimed layering
of the six partial maps (later layer wins) on every key other than
`device_name` — whose seeding and empty-value fixup C8 covers — and the
`assessment_reasoning` key is absent from the output. -/
theorem merge_layering_amended (s : DiagState) (k : String)
    (hk : k ≠ "device_name") :
    dget (mergeMerged s) k = dget (claimC7Layer s) k ∧
    dget (mergeMerged s) "assessment_reasoning" = none := by
  constructor
  · unfold mergeMerged claimC7Layer
    dsimp only
    by_cases har : k = "assessment_reasoning"
    · subst har
      rw [dget_dpop_self, dget_dpop_self]
    · rw [dget_dpop_ne _ _ _ har, dget_dpop_ne _ _ _ har]
      have hM : dget ([("device_name",
          Val.vStr (s.deviceName.getD "未知设备"))] ++ mergeLayered s) k =
          dget (mergeLayered s) k := by
        cases hL : dget (mergeLayered s) k with
        | none => rw [dget_append_of_none hL, dget_single_ne _ _ _ hk, ← hL]
        | some w => rw [dget_append_of_some hL]
      split
      · rw [dget_dset_ne _ _ _ _ hk, hM]
      · exact hM
  · unfold mergeMerged
    dsimp only
    exact dget_dpop_self _ _

/-- Witness for C7 (amended) at the concrete state of the counterexample
and the key `health_score`. -/
theorem merge_layering_amended_witness :
    dget (mergeMerged sC7) "health_score" =
      dget (claimC7Layer sC7) "health_score" ∧
    dget (mergeMerged sC7) "assessment_reasoning" = none :=
  merge_layering_amended sC7 "health_score" (by decide)

/-- C8: when the retrieval stage has set a non-empty `device_name`, the
merge step's output `device_name` is protected: with no contribution from
the six partial maps it is the retrieval value; a falsy (in particular
empty-string) effective contribution is overridden back to the retrieval
value; only a truthy contribution replaces it. -/
theorem merge_device_name_protected (s : DiagState) (v : String)
    (hv : s.deviceName = some v) (hne : v ≠ "") :
    (dget (mergeLayered s) "device_name" = none →
      dget (mergeMerged s) "device_name" = some (.vStr v)) ∧
    (∀ w, dget (mergeLayered s) "device_name" = some w → w.truthy = false →
      dget (mergeMerged s) "device_name" = some (.vStr v)) ∧
    (∀ w, dget (mergeLayered s) "device_name" = some w → w.truthy = true →
      dget (mergeMerged s) "device_name" = some w) := by
  have hdn : ("device_name" : String) ≠ "assessment_reasoning" := by decide
  unfold mergeMerged
  rw [hv]
  simp only [Option.getD_some]
  refine ⟨?_, ?_, ?_⟩
  · intro hnone
    have h1 : dget ([("device_name", Val.vStr v)] ++ mergeLayered s)
        "device_name" = some (.vStr v) := by
      rw [dget_append_of_none hnone]
      exact dget_single _ _
    have ht : Val.truthy (.vStr v) = true := by simp [Val.truthy, hne]
    have hcnd : (!(((dget ([("device_name", Val.vStr v)] ++ mergeLayered s)
        "device_name").map Val.truthy).getD false)) = false := by
      rw [h1]
      simp [ht]
    rw [hcnd]
    simp only [Bool.false_eq_true, if_false]
    rw [dget_dpop_ne _ _ _ hdn]
    exact h1
  · intro w hw htr
    have h1 : dget ([("device_name", Val.vStr v)] ++ mergeLayered s)
        "device_name" = some w := dget_append_of_some hw _
    have hcnd : (!(((dget ([("device_name", Val.vStr v)] ++ mergeLayered s)
        "device_name").map Val.truthy).getD false)) = true := by
      rw [h1]
      simp [htr]
    rw [hcnd]
    simp only [if_true]
    rw [dget_dpop_ne _ _ _ hdn, dget_dset_self]
  · intro w hw htr
    have h1 : dget ([("device_name", Val.vStr v)] ++ mergeLayered s)
        "device_name" = some w := dget_append_of_some hw _
    have hcnd : (!(((dget ([("device_name", Val.vStr v)] ++ mergeLayered s)
        "device_name").map Val.truthy).getD false)) = false := by
      rw [h1]
      simp [htr]
    rw [hcnd]
    simp only [Bool.false_eq_true, if_false]
    rw [dget_dpop_ne _ _ _ hdn]
    exact h1

/-- Witness for C8: the device info node contributed `device_name = ""`,
and the merge output keeps the retrieval value "主变压器". -/
theorem merge_device_name_protected_witness :
    dget (mergeMerged sC8) "device_name" = some (.vStr "主变压器") :=
  (merge_device_name_protected sC8 "主变压器" rfl (by decide)).2.1
    (.vStr "") rfl rfl

/-- C3 (divergence demonstration): the validation LLM succeeds and returns
the non-empty corrections map `{"health_score": 80}` over a working field
set whose `health_score` is 40; the node's partial update carries only
`validation_issues` (every other key of the update is absent), so the
corrections never reach the state, and the merge that follows still sees
`health_score = 40` both in its merged dict and in the final
`diagnosis_data`. -/
theorem validation_corrections_are_dropped :
    (validationNode validationLLMC3 sC3).coreAssessment = none ∧
    (validationNode validationLLMC3 sC3).faultAnalysis = none ∧
    (validationNode validationLLMC3 sC3).riskAnalysis = none ∧
    (validationNode validationLLMC3 sC3).deviceInfoFields = none ∧
    (validationNode validationLLMC3 sC3).monitoringFields = none ∧
    (validationNode validationLLMC3 sC3).maintenanceFields = none ∧
    (validationNode validationLLMC3 sC3).diagnosisData = none ∧
    (validationNode validationLLMC3 sC3).validationIssues = some [] ∧
    dget (mergeMerged (applyUpdate sC3 (validationNode validationLLMC3 sC3)))
      "health_score" = some (.vInt 40) ∧
    dget ((mergeFieldsNode (applyUpdate sC3
      (validationNode validationLLMC3 sC3))).diagnosisData.getD [])
      "health_score" = some (.vInt 40) :=
  ⟨rfl, rfl, rfl, rfl, rfl, rfl, rfl, rfl, rfl, rfl⟩

theorem intGeLeField_ok_bounds {d : Dict} {k : String} {lo hi dflt n : Int}
    (hlo : lo ≤ dflt) (hhi : dflt ≤ hi)
    (h : intGeLeField d k lo hi dflt = .ok n) : lo ≤ n ∧ n ≤ hi := by
  unfold intGeLeField at h
  cases hd : dget d k with
  | none =>
      rw [hd] at h
      injection h with h'
      exact h' ▸ ⟨hlo, hhi⟩
  | some v =>
      rw [hd] at h
      cases v with
      | vInt m =>
          dsimp only at h
          by_cases hb : lo ≤ m ∧ m ≤ hi
          · rw [if_pos hb] at h
            injection h with h'
            exact h' ▸ hb
          · rw [if_neg hb] at h
            exact Except.noConfusion h
      | vStr s => exact Except.noConfusion h
      | vList l => exact Except.noConfusion h
      | vDict dd => exact Except.noConfusion h

theorem intGeField_ok_bound {d : Dict} {k : String} {lo dflt n : Int}
    (hlo : lo ≤ dflt)
    (h : intGeField d k lo dflt = .ok n) : lo ≤ n := by
  unfold intGeField at h
  cases hd : dget d k with
  | none =>
      rw [hd] at h
      injection h with h'
      exact h' ▸ hlo
  | some v =>
      rw [hd] at h
      cases v with
      | vInt m =>
          dsimp only at h
          by_cases hb : lo ≤ m
          · rw [if_pos hb] at h
            injection h with h'
            exact h' ▸ hb
          · rw [if_neg hb] at h
            exact Except.noConfusion h
      | vStr s => exact Except.noConfusion h
      | vList l => exact Except.noConfusion h
      | vDict dd => exact Except.noConfusion h

theorem strFieldsFor_keys {d : Dict} :
    ∀ {names : List String} {tail : Dict},
      strFieldsFor d names = .ok tail → ∀ p ∈ tail, p.1 ∈ names := by
  intro names
  induction names with
  | nil =>
      intro tail h p hp
      unfold strFieldsFor at h
      injection h with h'
      rw [← h'] at hp
      cases hp
  | cons n ns ih =>
      intro tail h p hp
      unfold strFieldsFor at h
      cases hs : strField d n "" with
      | error e =>
          rw [hs] at h
          exact Except.noConfusion h
      | ok s =>
          rw [hs] at h
          cases hr : strFieldsFor d ns with
          | error e =>
              rw [hr] at h
              exact Except.noConfusion h
          | ok rest =>
              rw [hr] at h
              injection h with h'
              rw [← h'] at hp
              rcases List.mem_cons.mp hp with hph | hpt
              · rw [hph]
                exact List.mem_cons_self n ns
              · exact List.mem_cons_of_mem n (ih hr p hpt)

theorem dget_none_of_keys {tail : Dict} {names : List String} {k : String}
    (hkeys : ∀ p ∈ tail, p.1 ∈ names) (hk : k ∉ names) :
    dget tail k = none := by
  unfold dget
  rw [Option.map_eq_none', List.find?_eq_none]
  intro p hp
  have hm := hkeys p (List.mem_reverse.mp hp)
  simp only [beq_iff_eq]
  intro hc
  exact hk (hc ▸ hm)

/-- C9 counterexample: the upstream LLM put `health_score = 150` into the
core assessment; schema validation fails, `merge_fields_node` falls back
to the raw merged dict, and the final `diagnosis_data` carries
`health_score = 150 ∉ [0,100]`. -/
theorem diagnosis_record_bounds_counterexample :
    dget ((mergeFieldsNode sC9).diagnosisData.getD []) "health_score" =
      some (.vInt 150) ∧
    ¬ (∃ n : Int, dget ((mergeFieldsNode sC9).diagnosisData.getD [])
        "health_score" = some (.vInt n) ∧ 0 ≤ n ∧ n ≤ 100) := by
  refine ⟨rfl, ?_⟩
  rintro ⟨n, hn, _, hn2⟩
  have h150 : dget ((mergeFieldsNode sC9).diagnosisData.getD [])
      "health_score" = some (.vInt 150) := rfl
  rw [h150] at hn
  injection hn with h1
  injection h1 with h2
  rw [← h2] at hn2
  exact absurd hn2 (by norm_num)

/-- C9 (amended): whenever schema validation succeeds — i.e.
`from_llm_response` returns a record; on failure the source falls back to
the raw merged dict, see the counterexample — the record has
`health_score ∈ [0,100]` and `issue_count ≥ 0`; and a string-valued
`health_score` is coerced to its parsed integer (0 when unparseable)
before validation. -/
theorem diagnosis_record_bounds_amended (d dump : Dict)
    (h : fromLlmResponse d = .ok dump) :
    (∃ n : Int, dget dump "health_score" = some (.vInt n) ∧
      0 ≤ n ∧ n ≤ 100) ∧
    (∃ m : Int, dget dump "issue_count" = some (.vInt m) ∧ 0 ≤ m) ∧
    (∀ str, dget d "health_score" = some (.vStr str) →
      dget (coerceIntField (coerceIntField d "health_score") "issue_count")
        "health_score" = some (.vInt ((parseIntStr str).getD 0))) := by
  have hc3 : ∀ str, dget d "health_score" = some (.vStr str) →
      dget (coerceIntField (coerceIntField d "health_score") "issue_count")
        "health_score" = some (.vInt ((parseIntStr str).getD 0)) := by
    intro str hstr
    have h1 : dget (coerceIntField d "health_score") "health_score" =
        some (.vInt ((parseIntStr str).getD 0)) := by
      unfold coerceIntField
      rw [hstr]
      dsimp only
      cases hp : parseIntStr str with
      | some n =>
          dsimp only
          rw [dget_dset_self]
          rfl
      | none =>
          dsimp only
          rw [dget_dset_self]
          rfl
    generalize hD1 : coerceIntField d "health_score" = D1 at h1 ⊢
    unfold coerceIntField
    cases hic : dget D1 "issue_count" with
    | none => exact h1
    | some v =>
        cases v with
        | vStr s2 =>
            dsimp only
            cases parseIntStr s2 with
            | some m =>
                dsimp only
                rw [dget_dset_ne _ _ _ _
                  (by decide : ("health_score" : String) ≠ "issue_count")]
                exact h1
            | none =>
                dsimp only
                rw [dget_dset_ne _ _ _ _
                  (by decide : ("health_score" : String) ≠ "issue_count")]
                exact h1
        | vInt m => exact h1
        | vList l => exact h1
        | vDict dd => exact h1
  refine ⟨?_, ?_, hc3⟩ <;>
  · unfold fromLlmResponse modelValidateDump at h
    cases h1 : strField (coerceIntField (coerceIntField d "health_score")
        "issue_count") "title" "设备健康诊断报告" with
    | error e => rw [h1] at h; exact Except.noConfusion h
    | ok title =>
      rw [h1] at h
      cases h2 : strField (coerceIntField (coerceIntField d "health_score")
          "issue_count") "report_id" "DX-00000000-001" with
      | error e => rw [h2] at h; exact Except.noConfusion h
      | ok reportId =>
        rw [h2] at h
        cases h3 : requiredStrField (coerceIntField (coerceIntField d
            "health_score") "issue_count") "device_name" with
        | error e => rw [h3] at h; exact Except.noConfusion h
        | ok deviceName =>
          rw [h3] at h
          cases h4 : strField (coerceIntField (coerceIntField d
              "health_score") "issue_count") "device_model" "未知型号" with
          | error e => rw [h4] at h; exact Except.noConfusion h
          | ok deviceModel =>
            rw [h4] at h
            cases h5 : strField (coerceIntField (coerceIntField d
                "health_score") "issue_count") "location" "未知位置" with
            | error e => rw [h5] at h; exact Except.noConfusion h
            | ok location =>
              rw [h5] at h
              cases h6 : strField (coerceIntField (coerceIntField d
                  "health_score") "issue_count") "diagnosis_date" "" with
              | error e => rw [h6] at h; exact Except.noConfusion h
              | ok diagnosisDate =>
                rw [h6] at h
                cases h7 : strField (coerceIntField (coerceIntField d
                    "health_score") "issue_count") "data_range" "" with
                | error e => rw [h7] at h; exact Except.noConfusion h
                | ok dataRange =>
                  rw [h7] at h
                  cases h8 : intGeLeField (coerceIntField (coerceIntField d
                      "health_score") "issue_count") "health_score" 0 100 0 with
                  | error e => rw [h8] at h; exact Except.noConfusion h
                  | ok healthScore =>
                    rw [h8] at h
                    cases h9 : enumField (coerceIntField (coerceIntField d
                        "health_score") "issue_count") "health_status"
                        ["正常", "警告", "异常", "严重"] "正常" with
                    | error e => rw [h9] at h; exact Except.noConfusion h
                    | ok healthStatus =>
                      rw [h9] at h
                      cases h10 : enumField (coerceIntField (coerceIntField d
                          "health_score") "issue_count") "risk_level"
                          ["低", "中", "高"] "低" with
                      | error e => rw [h10] at h; exact Except.noConfusion h
                      | ok riskLevel =>
                        rw [h10] at h
                        cases h11 : intGeField (coerceIntField (coerceIntField
                            d "health_score") "issue_count") "issue_count"
                            0 0 with
                        | error e => rw [h11] at h; exact Except.noConfusion h
                        | ok issueCount =>
                          rw [h11] at h
                          cases h12 : strFieldsFor (coerceIntField
                              (coerceIntField d "health_score") "issue_count")
                              diagTailFieldNames with
                          | error e => rw [h12] at h; exact Except.noConfusion h
                          | ok tail =>
                            rw [h12] at h
                            injection h with hdump
                            have htail : ∀ kk, kk ∉ diagTailFieldNames →
                                dget tail kk = none := fun kk hkk =>
                              dget_none_of_keys (strFieldsFor_keys h12) hkk
                            first
                            | exact ⟨healthScore, by
                                rw [← hdump,
                                  dget_append_of_none (htail _ (by decide))]
                                rfl,
                                intGeLeField_ok_bounds (by norm_num)
                                  (by norm_num) h8⟩
                            | exact ⟨issueCount, by
                                rw [← hdump,
                                  dget_append_of_none (htail _ (by decide))]
                                rfl,
                                intGeField_ok_bound (by norm_num) h11⟩

set_option maxHeartbeats 1000000 in
/-- Witness for C9 (amended) with `health_score` arriving as the string
"85": validation succeeds and the record carries the integer 85. -/
theorem diagnosis_record_bounds_amended_witness :
    (∃ n : Int, dget dumpW "health_score" = some (.vInt n) ∧
      0 ≤ n ∧ n ≤ 100) ∧
    (∃ m : Int, dget dumpW "issue_count" = some (.vInt m) ∧ 0 ≤ m) ∧
    (∀ str, dget dW "health_score" = some (.vStr str) →
      dget (coerceIntField (coerceIntField dW "health_score") "issue_count")
        "health_score" = some (.vInt ((parseIntStr str).getD 0))) :=
  diagnosis_record_bounds_amended dW dumpW rfl

theorem applyUpdate_diagnosisData (s : DiagState) (u : StateUpdate) :
    (applyUpdate s u).diagnosisData = u.diagnosisData.getD s.diagnosisData := rfl

theorem applyUpdate_reportPath (s : DiagState) (u : StateUpdate) :
    (applyUpdate s u).reportPath = u.reportPath.getD s.reportPath := rfl

theorem reportNode_update_diagnosisData (em : Except String EmitterResult)
    (s : DiagState) : ((reportNode em s).1).diagnosisData = none := by
  unfold reportNode
  split
  · rfl
  · cases em with
    | error e => rfl
    | ok r =>
        dsimp only
        split
        · rfl
        · rfl

theorem mergeFieldsNode_diagnosisData (s : DiagState) :
    (mergeFieldsNode s).diagnosisData =
      some ((fromLlmResponse (mergeMerged s)).toOption.getD (mergeMerged s)) := by
  unfold mergeFieldsNode
  cases h : fromLlmResponse (mergeMerged s) with
  | ok dump => rfl
  | error e => rfl

theorem runDiagnosis_diagnosisData (env : DiagEnv) (q : String) :
    (runDiagnosis env q).diagnosisData =
      (fromLlmResponse (mergeMerged (diagAfterValidation env q))).toOption.getD
        (mergeMerged (diagAfterValidation env q)) := by
  unfold runDiagnosis
  rw [applyUpdate_diagnosisData, reportNode_update_diagnosisData,
    Option.getD_none, applyUpdate_diagnosisData, mergeFieldsNode_diagnosisData,
    Option.getD_some]

theorem runDiagnosis_reportPath (env : DiagEnv) (q : String) :
    (runDiagnosis env q).reportPath =
      (((reportNode env.emitter (applyUpdate (diagAfterValidation env q)
        (mergeFieldsNode (diagAfterValidation env q)))).1).reportPath).getD
      ((applyUpdate (diagAfterValidation env q)
        (mergeFieldsNode (diagAfterValidation env q))).reportPath) := by
  unfold runDiagnosis
  rw [applyUpdate_reportPath]

theorem mergeMerged_congr (s s' : DiagState)
    (h1 : s.deviceName = s'.deviceName)
    (h2 : s.deviceInfoFields = s'.deviceInfoFields)
    (h3 : s.coreAssessment = s'.coreAssessment)
    (h4 : s.monitoringFields = s'.monitoringFields)
    (h5 : s.faultAnalysis = s'.faultAnalysis)
    (h6 : s.riskAnalysis = s'.riskAnalysis)
    (h7 : s.maintenanceFields = s'.maintenanceFields) :
    mergeMerged s = mergeMerged s' := by
  unfold mergeMerged mergeLayered
  rw [h1, h2, h3, h4, h5, h6, h7]

theorem reportNode_not_empty (em : Except String EmitterResult) (s : DiagState)
    (hne : s.diagnosisData.isEmpty = false) :
    (reportNode em s).1 =
      (match em with
       | .error e => { reportPath := some ("报告生成失败: " ++ e) }
       | .ok r =>
           if !r.success then
             { reportPath := some ("报告生成失败: " ++
               (r.errorMsg.getD "未知错误")) }
           else { reportPath := some (r.outputPath.getD "") }) := by
  unfold reportNode
  rw [hne]
  simp only [Bool.false_eq_true, if_false]
  cases em with
  | error e => rfl
  | ok r =>
      obtain ⟨suc, op, emsg⟩ := r
      cases suc with
      | false => rfl
      | true => rfl

theorem append_ne_empty_left (a b : String) (ha : a.length ≠ 0) :
    a ++ b ≠ "" := by
  intro h
  have hl := congrArg String.length h
  rw [String.length_append] at hl
  have h0 : ("" : String).length = 0 := rfl
  rw [h0] at hl
  omega

set_option maxHeartbeats 2000000 in
/-- C4 counterexample: one retrieved document, every LLM call raising and
the emitter raising as well; the pipeline terminates with
`health_score = 50` (the degraded core-assessment default) rather than
the 0 the claim states. -/
theorem run_diagnosis_health50_counterexample :
    envC4.llmAlwaysRaises ∧
    dget (runDiagnosis envC4 "变压器").diagnosisData "health_score" =
      some (.vInt 50) ∧
    dget (runDiagnosis envC4 "变压器").diagnosisData "health_score" ≠
      some (.vInt 0) := by
  refine ⟨⟨⟨_, rfl⟩, ⟨_, rfl⟩, ⟨_, rfl⟩, ⟨_, rfl⟩, ⟨_, rfl⟩, ⟨_, rfl⟩,
    ⟨_, rfl⟩⟩, rfl, ?_⟩
  intro hcont
  have h50 : dget (runDiagnosis envC4 "变压器").diagnosisData
      "health_score" = some (.vInt 50) := rfl
  rw [h50] at hcont
  injection hcont with h1
  injection h1 with h2
  exact absurd h2 (by norm_num)

set_option maxHeartbeats 1000000 in
/-- C4 (amended): with every LLM call raising, the pipeline completes —
each failure is caught at its node — and its terminal record has
`health_score = 0` when retrieval found no documents and `= 50` (the
degraded core-assessment default) otherwise; moreover, whenever the report
emitter raises, fails, or succeeds with a non-empty output path, the
terminal `report_path` is a non-empty string. -/
theorem run_diagnosis_degraded (docs : List Doc)
    (e1 e2 e3 e4 e5 e6 e7 : String) (em : Except String EmitterResult)
    (hem : ∀ r, em = .ok r → r.success = true → r.outputPath.getD "" ≠ "") :
    (mkFailingLLMEnv docs e1 e2 e3 e4 e5 e6 e7 em).llmAlwaysRaises ∧
    dget (runDiagnosis (mkFailingLLMEnv docs e1 e2 e3 e4 e5 e6 e7 em)
      "变压器").diagnosisData "health_score" =
      some (.vInt (if docs.isEmpty then 0 else 50)) ∧
    (runDiagnosis (mkFailingLLMEnv docs e1 e2 e3 e4 e5 e6 e7 em)
      "变压器").reportPath ≠ "" := by
  refine ⟨⟨⟨e1, rfl⟩, ⟨e2, rfl⟩, ⟨e3, rfl⟩, ⟨e4, rfl⟩, ⟨e5, rfl⟩,
    ⟨e6, rfl⟩, ⟨e7, rfl⟩⟩, ?_, ?_⟩
  · cases docs with
    | nil =>
        rw [runDiagnosis_diagnosisData,
          (show diagAfterValidation (mkFailingLLMEnv [] e1 e2 e3 e4 e5 e6 e7
            em) "变压器" = s5Degraded coreDefaultEmpty from rfl)]
        rfl
    | cons dh dt =>
        rw [runDiagnosis_diagnosisData,
          (show diagAfterValidation (mkFailingLLMEnv (dh :: dt) e1 e2 e3 e4 e5
            e6 e7 em) "变压器" =
            { s5Degraded coreDefaultFail with documents := dh :: dt } from rfl),
          mergeMerged_congr
            ({ s5Degraded coreDefaultFail with documents := dh :: dt })
            (s5Degraded coreDefaultFail) rfl rfl rfl rfl rfl rfl rfl]
        rfl
  · cases docs with
    | nil =>
        have hne : ((applyUpdate (diagAfterValidation (mkFailingLLMEnv []
            e1 e2 e3 e4 e5 e6 e7 em) "变压器") (mergeFieldsNode
            (diagAfterValidation (mkFailingLLMEnv [] e1 e2 e3 e4 e5 e6 e7 em)
            "变压器"))).diagnosisData).isEmpty = false := by
          rw [applyUpdate_diagnosisData, mergeFieldsNode_diagnosisData,
            Option.getD_some,
            (show diagAfterValidation (mkFailingLLMEnv [] e1 e2 e3 e4 e5 e6 e7
              em) "变压器" = s5Degraded coreDefaultEmpty from rfl)]
          rfl
        rw [runDiagnosis_reportPath, reportNode_not_empty _ _ hne]
        cases em with
        | error e =>
            exact append_ne_empty_left _ _ (by decide)
        | ok r =>
            obtain ⟨suc, op, emsg⟩ := r
            cases suc with
            | false =>
                exact append_ne_empty_left _ _ (by decide)
            | true =>
                exact hem ⟨true, op, emsg⟩ rfl rfl
    | cons dh dt =>
        have hne : ((applyUpdate (diagAfterValidation (mkFailingLLMEnv
            (dh :: dt) e1 e2 e3 e4 e5 e6 e7 em) "变压器") (mergeFieldsNode
            (diagAfterValidation (mkFailingLLMEnv (dh :: dt) e1 e2 e3 e4 e5 e6
            e7 em) "变压器"))).diagnosisData).isEmpty = false := by
          rw [applyUpdate_diagnosisData, mergeFieldsNode_diagnosisData,
            Option.getD_some,
            (show diagAfterValidation (mkFailingLLMEnv (dh :: dt) e1 e2 e3 e4
              e5 e6 e7 em) "变压器" =
              { s5Degraded coreDefaultFail with documents := dh :: dt } from rfl),
            mergeMerged_congr
              ({ s5Degraded coreDefaultFail with documents := dh :: dt })
              (s5Degraded coreDefaultFail) rfl rfl rfl rfl rfl rfl rfl]
          rfl
        rw [runDiagnosis_reportPath, reportNode_not_empty _ _ hne]
        cases em with
        | error e =>
            exact append_ne_empty_left _ _ (by decide)
        | ok r =>
            obtain ⟨suc, op, emsg⟩ := r
            cases suc with
            | false =>
                exact append_ne_empty_left _ _ (by decide)
            | true =>
                exact hem ⟨true, op, emsg⟩ rfl rfl

set_option maxHeartbeats 1000000 in
/-- Witness for C4 (amended): empty retrieval, every LLM call and the
emitter raising. -/
theorem run_diagnosis_degraded_witness :
    dget (runDiagnosis (mkFailingLLMEnv [] "a" "b" "c" "d" "e" "f" "g"
      (.error "h")) "变压器").diagnosisData "health_score" =
      some (.vInt (if ([] : List Doc).isEmpty then 0 else 50)) ∧
    (runDiagnosis (mkFailingLLMEnv [] "a" "b" "c" "d" "e" "f" "g"
      (.error "h")) "变压器").reportPath ≠ "" :=
  ⟨(run_diagnosis_degraded [] "a" "b" "c" "d" "e" "f" "g" (.error "h")
      (fun _ hr => Except.noConfusion hr)).2.1,
   (run_diagnosis_degraded [] "a" "b" "c" "d" "e" "f" "g" (.error "h")
      (fun _ hr => Except.noConfusion hr)).2.2⟩

end RagAgent
